import Mathlib

/-!
A shallow embedding, in Lean 4, of `main.py` from the `docker-backup`
repository: a label-driven backup orchestrator for Docker containers.

Modelling conventions:
* Python strings are Lean `String`s; byte strings are `List Nat`.
* A raised Python exception is an `Except.error` carrying its message;
  `try/except` blocks are modelled by matching on the `Except` value.
* The Docker SDK is the external boundary: each container carries, as data,
  the behaviour of `exec_run` and `get_archive` (each of which may raise).
* The filesystem is a record of directories and of gzip write events.  A
  gzip artifact stores the uncompressed bytes that were streamed through the
  compressor; the codec itself is an external, round-tripping component.
* Each `datetime.now()` call reads one tick from a clock stream `tclock`.
-/

/-- A Python `datetime` value, down to microsecond resolution, as returned
by `datetime.now()`. -/
structure DT where
  year : Nat
  month : Nat
  day : Nat
  hour : Nat
  minute : Nat
  second : Nat
  microsecond : Nat
deriving DecidableEq

/-- Zero-pad the decimal representation of `n` to at least `width` digits,
as the numeric `strftime` directives do. -/
def zeroPad (width : Nat) (n : Nat) : String :=
  let s := toString n
  if s.length < width then String.mk (List.replicate (width - s.length) '0') ++ s else s

/-- The `datetime.now().strftime('%Y%m%d_%H%M%S')` timestamp used by every
strategy: second resolution, the microsecond field is not printed. -/
def strftimeYmdHMS (d : DT) : String :=
  zeroPad 4 d.year ++ zeroPad 2 d.month ++ zeroPad 2 d.day ++ "_" ++
    zeroPad 2 d.hour ++ zeroPad 2 d.minute ++ zeroPad 2 d.second

/-- Python `str.lower()` (ASCII case mapping, which covers the label values
this program compares). -/
def pyLower (s : String) : String := String.mk (s.data.map Char.toLower)

/-- The character filter of `safe_filename`: `c.isalnum() or c in ('_', '-')`.
`Char.isAlphanum` is the ASCII restriction of the Unicode `isalnum`. -/
def keepChar (c : Char) : Bool := c.isAlphanum || c == '_' || c == '-'

/-- The (ASCII) whitespace characters stripped by a bare `str.rstrip()`. -/
def pyIsSpace (c : Char) : Bool :=
  c == ' ' || c == '\t' || c == '\n' || c == '\r' || c == '\x0b' || c == '\x0c'

/-- Python `str.rstrip()`: drop the trailing run of whitespace characters. -/
def pyRstrip (l : List Char) : List Char := List.rdropWhile pyIsSpace l

/-- `safe_filename` from `main.py`:
`"".join(c for c in name if c.isalnum() or c in ('_', '-')).rstrip()`. -/
def safe_filename (name : String) : String :=
  String.mk (pyRstrip (name.data.filter keepChar))

/-- `dict.get(key, default)` on a dict built from a sequence of key/value
pairs: the last binding of a key wins; an absent key gives the default. -/
def dictGet (l : List (String × String)) (k d : String) : String :=
  match l.reverse.find? (fun p => p.1 == k) with
  | some p => p.2
  | none => d

/-- `item.split('=', 1)` on the character list: the part before the first
`'='`, and the part after it when one occurs. -/
def splitEq1 : List Char → List Char × Option (List Char)
  | [] => ([], none)
  | c :: rest =>
    if c == '=' then ([], some rest)
    else
      let (a, b) := splitEq1 rest
      (c :: a, b)

/-- `dict(item.split('=', 1) for item in container_env)`: builds the
environment dictionary, raising `ValueError` on an entry without `'='`. -/
def parseEnv (env : List String) : Except String (List (String × String)) :=
  env.mapM (fun item =>
    match splitEq1 item.data with
    | (k, some v) => Except.ok (String.mk k, String.mk v)
    | (_, none) =>
      Except.error "ValueError: dictionary update sequence element has length 1; 2 is required")

/-- The stat metadata returned by `get_archive` next to the chunk stream
(bound to `stat` in the source and never used). -/
structure ArchiveStat where
  size : Nat
deriving DecidableEq

/-- A running container as the script sees it through the Docker SDK: its
name, its labels, its raw `Config.Env` entries, and the behaviour of the two
SDK calls the strategies make (each of which may raise). -/
structure Container where
  name : String
  labels : List (String × String)
  env : List String
  execRun : String → List (String × String) → Except String (Int × List Nat)
  getArchive : String → Except String (List (List Nat) × ArchiveStat)

/-- One line emitted through the module logger. -/
inductive LogEntry where
  | info (msg : String)
  | error (msg : String)
deriving DecidableEq

/-- A record of one strategy function being entered. -/
inductive Call where
  | mysql (cname : String)
  | django (cname : String)
  | volume (cname : String) (vol : String)
deriving DecidableEq

/-- A gzip artifact file: its path, and the uncompressed bytes that were
streamed through the compressor while it was open. -/
structure GzFile where
  path : String
  content : List Nat
deriving DecidableEq

/-- Reading a gzip artifact back through the codec yields exactly the bytes
that were streamed into the compressor. -/
def gunzip (f : GzFile) : List Nat := f.content

/-- The filesystem: existing directories, and the gzip files written so far
(`gzip.open(path, 'wb')` creates each file fresh; every name this program
builds embeds a per-job timestamp). -/
structure FS where
  dirs : List String
  files : List GzFile
deriving DecidableEq

/-- The observable state of one run: the filesystem, the log lines emitted
so far, and the strategy invocations made so far. -/
structure St where
  fs : FS
  log : List LogEntry
  calls : List Call
deriving DecidableEq

def St.logInfo (st : St) (m : String) : St :=
  { st with log := st.log ++ [LogEntry.info m] }

def St.logError (st : St) (m : String) : St :=
  { st with log := st.log ++ [LogEntry.error m] }

def St.recordCall (st : St) (c : Call) : St :=
  { st with calls := st.calls ++ [c] }

def St.writeGz (st : St) (p : String) (content : List Nat) : St :=
  { st with fs := { st.fs with files := st.fs.files ++ [⟨p, content⟩] } }

/-- `s.endswith(t)`. -/
def pyEndsWith (s t : String) : Bool := t.data.isSuffixOf s.data

/-- `os.path.join(dir, name)` for the relative `name`s this program builds:
insert a separator unless `dir` already ends with one. -/
def osPathJoin (dir name : String) : String :=
  if pyEndsWith dir "/" then dir ++ name else dir ++ "/" ++ name

/-- The f-string of `backup_mysql`:
`f"mysql_backup_{safe_filename(container.name)}_{timestamp}.sql.gz"`,
joined onto the backup directory. -/
def mysqlBackupFile (backup_dir cname ts : String) : String :=
  osPathJoin backup_dir ("mysql_backup_" ++ safe_filename cname ++ "_" ++ ts ++ ".sql.gz")

/-- The f-string of `backup_django`, joined onto the backup directory. -/
def djangoBackupFile (backup_dir cname ts : String) : String :=
  osPathJoin backup_dir ("django_backup_" ++ safe_filename cname ++ "_" ++ ts ++ ".json.gz")

/-- The f-string of `backup_volume`, joined onto the backup directory. -/
def volumeBackupFile (backup_dir cname vol ts : String) : String :=
  osPathJoin backup_dir
    ("volume_backup_" ++ safe_filename cname ++ "_" ++ safe_filename vol ++ "_" ++ ts ++ ".tar.gz")

/-- `bytes.decode()` on the model byte range. -/
def pyDecode (bs : List Nat) : String := String.mk (bs.map Char.ofNat)

/-- The dump command of `backup_mysql`:
`f'mysqldump -u {mysql_user} --databases {mysql_database}'`. -/
def mysqlCmd (user database : String) : String :=
  "mysqldump -u " ++ user ++ " --databases " ++ database

/-- The fixed dump command of `backup_django`. -/
def djangoCmd : String :=
  "python3 manage.py dumpdata -e contenttypes -e auth.permission --natural-foreign --natural-primary"

/-- `backup_mysql(container, backup_dir)` from `main.py`.  `ts` is the
`datetime.now()` reading formatted at entry.  The first component is
`Except.error e` exactly when the Python function raises (a malformed
environment entry, or `exec_run` raising); the returned state carries the
effects performed before the raise point. -/
def backup_mysql (container : Container) (backup_dir ts : String) (st : St) :
    Except String Bool × St :=
  let st := st.recordCall (Call.mysql container.name)
  let backup_file := mysqlBackupFile backup_dir container.name ts
  match parseEnv container.env with
  | Except.error e => (Except.error e, st)
  | Except.ok env_dict =>
    let mysql_user := dictGet env_dict "MYSQL_USER" "root"
    let mysql_password := dictGet env_dict "MYSQL_PASSWORD" ""
    let mysql_database := dictGet env_dict "MYSQL_DATABASE" ""
    match container.execRun (mysqlCmd mysql_user mysql_database) [("MYSQL_PWD", mysql_password)] with
    | Except.error e => (Except.error e, st)
    | Except.ok (exit_code, output) =>
      if exit_code = 0 then
        (Except.ok true,
          (st.writeGz backup_file output).logInfo ("MySQL backup saved to " ++ backup_file))
      else
        (Except.ok false,
          st.logError ("MySQL backup failed for " ++ container.name ++ ": " ++ pyDecode output))

/-- `backup_django(container, backup_dir)` from `main.py`. -/
def backup_django (container : Container) (backup_dir ts : String) (st : St) :
    Except String Bool × St :=
  let st := st.recordCall (Call.django container.name)
  let backup_file := djangoBackupFile backup_dir container.name ts
  match container.execRun djangoCmd [] with
  | Except.error e => (Except.error e, st)
  | Except.ok (exit_code, output) =>
    if exit_code = 0 then
      (Except.ok true,
        (st.writeGz backup_file output).logInfo ("Django backup saved to " ++ backup_file))
    else
      (Except.ok false,
        st.logError ("Django backup failed for " ++ container.name ++ ": " ++ pyDecode output))

/-- The chunk loop `for chunk in bits: gz_file.write(chunk)`: the byte
stream that reaches the compressor, in chunk order. -/
def writeChunks (bits : List (List Nat)) : List Nat :=
  bits.foldl (fun acc chunk => acc ++ chunk) []

/-- `backup_volume(container, vol, backup_dir)` from `main.py`.  Its body is
one `try/except Exception` block, so the first component is always
`Except.ok`: a fetch failure is logged and converted to `false`. -/
def backup_volume (container : Container) (vol backup_dir ts : String) (st : St) :
    Except String Bool × St :=
  let st := st.recordCall (Call.volume container.name vol)
  let backup_file := volumeBackupFile backup_dir container.name vol ts
  match container.getArchive vol with
  | Except.ok (bits, _stat) =>
    (Except.ok true,
      (st.writeGz backup_file (writeChunks bits)).logInfo ("Volume backup saved to " ++ backup_file))
  | Except.error e =>
    (Except.ok false,
      st.logError ("Error backing up volume " ++ vol ++ " for container " ++ container.name ++ ": " ++ e))

/-- The opt-in gate: `labels.get("DCBAK", "").lower() != "true"` skips. -/
def optIn (c : Container) : Bool := pyLower (dictGet c.labels "DCBAK" "") == "true"

/-- The dump dispatch on `backup_type = labels.get("DCBAK-TYPE", "")`: run
the MySQL strategy on `"mysql"`, the Django strategy on `"django"`, nothing
otherwise.  Returns the state and clock after the block, together with the
exception it raised, if any (a strategy raising is recorded in the third
component; the effects performed before the raise point are kept). -/
def dumpStep (c : Container) (backup_dir : String) (tclock : Nat → DT) (n : Nat) (st : St) :
    St × Nat × Option String :=
  let backup_type := dictGet c.labels "DCBAK-TYPE" ""
  if backup_type == "mysql" then
    let st := st.logInfo " > MySQL Backup"
    match backup_mysql c backup_dir (strftimeYmdHMS (tclock n)) st with
    | (Except.ok _, st) => (st, n + 1, none)
    | (Except.error e, st) => (st, n + 1, some e)
  else if backup_type == "django" then
    let st := st.logInfo " > Django Backup"
    match backup_django c backup_dir (strftimeYmdHMS (tclock n)) st with
    | (Except.ok _, st) => (st, n + 1, none)
    | (Except.error e, st) => (st, n + 1, some e)
  else (st, n, none)

/-- The volume dispatch: `labels.get("DCBAK-VOLUME", False)` is truthy
exactly when the label is present and non-empty, in which case the
volume-archive strategy runs on its value. -/
def volumeStep (c : Container) (backup_dir : String) (tclock : Nat → DT) (n : Nat) (st : St) :
    St × Nat × Option String :=
  let vol := dictGet c.labels "DCBAK-VOLUME" ""
  if vol ≠ "" then
    let st := st.logInfo " > Volume Backup"
    match backup_volume c vol backup_dir (strftimeYmdHMS (tclock n)) st with
    | (Except.ok _, st) => (st, n + 1, none)
    | (Except.error e, st) => (st, n + 1, some e)
  else (st, n, none)

/-- The body of the per-container `try` block: the dump dispatch on
`DCBAK-TYPE`, then — independently — the volume dispatch on
`DCBAK-VOLUME`.  A raised dump exception skips the volume step, as in
Python. -/
def tryBody (c : Container) (backup_dir : String) (tclock : Nat → DT) (n : Nat) (st : St) :
    St × Nat × Option String :=
  match dumpStep c backup_dir tclock n st with
  | (st, n, some e) => (st, n, some e)
  | (st, n, none) => volumeStep c backup_dir tclock n st

/-- One iteration of the `for container in containers` loop: the opt-in
gate, the intent log line, and the `try/except Exception` boundary that
logs a raised exception with the container name and moves on. -/
def processOne (c : Container) (backup_dir : String) (tclock : Nat → DT) (n : Nat) (st : St) :
    St × Nat :=
  if optIn c then
    let st := st.logInfo ("Backing up " ++ c.name)
    match tryBody c backup_dir tclock n st with
    | (st, n, none) => (st, n)
    | (st, n, some e) =>
      (st.logError ("Error processing container " ++ c.name ++ ": " ++ e), n)
  else (st, n)

/-- The whole `for container in containers` loop. -/
def processAll (cs : List Container) (backup_dir : String) (tclock : Nat → DT) (n : Nat)
    (st : St) : St × Nat :=
  match cs with
  | [] => (st, n)
  | c :: rest =>
    let r := processOne c backup_dir tclock n st
    processAll rest backup_dir tclock r.2 r.1

/-- `os.path.exists` on the directory model. -/
def pathExists (fs : FS) (p : String) : Bool := fs.dirs.contains p

/-- `ensure_backup_dir` from `main.py`:
`Path(backup_dir).mkdir(parents=True, exist_ok=True)` — create the
directory, without error when it already exists. -/
def ensure_backup_dir (fs : FS) (backup_dir : String) : FS :=
  if fs.dirs.contains backup_dir then fs else { fs with dirs := fs.dirs ++ [backup_dir] }

/-- `backup_dir = "/backup" if os.path.exists("/backup") else "./backup"`. -/
def resolveBackupDir (fs : FS) : String :=
  if pathExists fs "/backup" then "/backup" else "./backup"

/-- The ambient world `main` runs in: the initial filesystem, the joint
outcome of `docker.from_env()` and `client.containers.list()`
(`Except.error` when a `DockerException` is raised), and the stream of
`datetime.now()` readings. -/
structure World where
  fs0 : FS
  docker : Except String (List Container)
  tclock : Nat → DT

/-- The `main()` function of `main.py` (named `pyMain` here because Lean
reserves `main`), as a function from the world to the final
observable state. -/
def pyMain (w : World) : St :=
  let backup_dir := resolveBackupDir w.fs0
  let fs := ensure_backup_dir w.fs0 backup_dir
  let st : St := ⟨fs, [], []⟩
  match w.docker with
  | Except.error e => st.logError ("Failed to connect to Docker: " ++ e)
  | Except.ok containers => (processAll containers backup_dir w.tclock 0 st).1

/-- The naming scheme exactly as §6 of the specification words it:
`<dir>/<kind>_backup_<safe(name)>[_<safe(extra)>]_<YYYYMMDD_HHMMSS>.<ext>.gz`.
This definition follows the specification text, to be compared with the
path builders taken from the source. -/
def specFilename (dir kind cname : String) (extra : Option String) (ts ext : String) : String :=
  dir ++ "/" ++ kind ++ "_backup_" ++ safe_filename cname ++
    (match extra with
     | some e => "_" ++ safe_filename e
     | none => "") ++ "_" ++ ts ++ "." ++ ext ++ ".gz"

/-! ## General helper lemmas -/

/-- Strings with equal character data are equal. -/
theorem stringEqOfData {s t : String} (h : s.data = t.data) : s = t := by
  cases s
  cases t
  exact congrArg String.mk h

/-- Folding the chunk writes over any accumulator appends the concatenation
of the chunks. -/
theorem foldl_write_append (bits : List (List Nat)) (acc : List Nat) :
    bits.foldl (fun a chunk => a ++ chunk) acc = acc ++ bits.flatten := by
  induction bits generalizing acc with
  | nil => simp
  | cons b bs ih => simp [ih, List.append_assoc]

/-- The bytes streamed through the compressor by the chunk loop are exactly
the concatenation of the chunks, in order. -/
theorem writeChunks_eq_join (bits : List (List Nat)) : writeChunks bits = bits.flatten := by
  simp [writeChunks, foldl_write_append]

/-! ## State-extension lemmas

Processing only ever appends to the log, the call record, and the file
list, and never touches the directory set. -/

/-- `st2` extends `st1`: same directories; log, call record, and file list
of `st1` are prefixes of those of `st2`. -/
def StExtends (st2 st1 : St) : Prop :=
  st2.fs.dirs = st1.fs.dirs ∧
  (∃ t, st2.log = st1.log ++ t) ∧
  (∃ u, st2.calls = st1.calls ++ u) ∧
  (∃ v, st2.fs.files = st1.fs.files ++ v)

theorem stExtends_refl (st : St) : StExtends st st :=
  ⟨rfl, ⟨[], (List.append_nil _).symm⟩, ⟨[], (List.append_nil _).symm⟩,
    ⟨[], (List.append_nil _).symm⟩⟩

theorem stExtends_trans {s3 s2 s1 : St} (h32 : StExtends s3 s2) (h21 : StExtends s2 s1) :
    StExtends s3 s1 := by
  obtain ⟨hd, ⟨t, ht⟩, ⟨u, hu⟩, ⟨v, hv⟩⟩ := h32
  obtain ⟨hd2, ⟨t2, ht2⟩, ⟨u2, hu2⟩, ⟨v2, hv2⟩⟩ := h21
  refine ⟨hd.trans hd2, ⟨t2 ++ t, ?_⟩, ⟨u2 ++ u, ?_⟩, ⟨v2 ++ v, ?_⟩⟩
  · rw [ht, ht2, List.append_assoc]
  · rw [hu, hu2, List.append_assoc]
  · rw [hv, hv2, List.append_assoc]

theorem logInfo_extends (st : St) (m : String) : StExtends (st.logInfo m) st :=
  ⟨rfl, ⟨[LogEntry.info m], rfl⟩, ⟨[], (List.append_nil _).symm⟩,
    ⟨[], (List.append_nil _).symm⟩⟩

theorem logError_extends (st : St) (m : String) : StExtends (st.logError m) st :=
  ⟨rfl, ⟨[LogEntry.error m], rfl⟩, ⟨[], (List.append_nil _).symm⟩,
    ⟨[], (List.append_nil _).symm⟩⟩

theorem mem_log_of_extends {st2 st1 : St} (h : StExtends st2 st1) {x : LogEntry}
    (hx : x ∈ st1.log) : x ∈ st2.log := by
  obtain ⟨-, ⟨t, ht⟩, -, -⟩ := h
  rw [ht]
  exact List.mem_append_left _ hx

theorem mem_calls_of_extends {st2 st1 : St} (h : StExtends st2 st1) {x : Call}
    (hx : x ∈ st1.calls) : x ∈ st2.calls := by
  obtain ⟨-, -, ⟨u, hu⟩, -⟩ := h
  rw [hu]
  exact List.mem_append_left _ hx

/-- `backup_mysql` extends the state, and its call record is exactly one
MySQL invocation. -/
theorem backup_mysql_extends (c : Container) (dir ts : String) (st : St) :
    StExtends (backup_mysql c dir ts st).2 st ∧
    (backup_mysql c dir ts st).2.calls = st.calls ++ [Call.mysql c.name] := by
  cases hp : parseEnv c.env with
  | error e =>
    simp only [backup_mysql, hp]
    exact ⟨⟨rfl, ⟨[], (List.append_nil _).symm⟩, ⟨[Call.mysql c.name], rfl⟩,
      ⟨[], (List.append_nil _).symm⟩⟩, rfl⟩
  | ok ed =>
    cases he : c.execRun (mysqlCmd (dictGet ed "MYSQL_USER" "root") (dictGet ed "MYSQL_DATABASE" ""))
        [("MYSQL_PWD", dictGet ed "MYSQL_PASSWORD" "")] with
    | error e =>
      simp only [backup_mysql, hp, he]
      exact ⟨⟨rfl, ⟨[], (List.append_nil _).symm⟩, ⟨[Call.mysql c.name], rfl⟩,
        ⟨[], (List.append_nil _).symm⟩⟩, rfl⟩
    | ok r =>
      obtain ⟨exit_code, output⟩ := r
      by_cases hec : exit_code = 0
      · simp only [backup_mysql, hp, he]
        rw [if_pos hec]
        exact ⟨⟨rfl, ⟨[LogEntry.info _], rfl⟩, ⟨[Call.mysql c.name], rfl⟩,
          ⟨[GzFile.mk (mysqlBackupFile dir c.name ts) output], rfl⟩⟩, rfl⟩
      · simp only [backup_mysql, hp, he]
        rw [if_neg hec]
        exact ⟨⟨rfl, ⟨[LogEntry.error _], rfl⟩, ⟨[Call.mysql c.name], rfl⟩,
          ⟨[], (List.append_nil _).symm⟩⟩, rfl⟩

/-- `backup_django` extends the state, and its call record is exactly one
Django invocation. -/
theorem backup_django_extends (c : Container) (dir ts : String) (st : St) :
    StExtends (backup_django c dir ts st).2 st ∧
    (backup_django c dir ts st).2.calls = st.calls ++ [Call.django c.name] := by
  cases he : c.execRun djangoCmd [] with
  | error e =>
    simp only [backup_django, he]
    exact ⟨⟨rfl, ⟨[], (List.append_nil _).symm⟩, ⟨[Call.django c.name], rfl⟩,
      ⟨[], (List.append_nil _).symm⟩⟩, rfl⟩
  | ok r =>
    obtain ⟨exit_code, output⟩ := r
    by_cases hec : exit_code = 0
    · simp only [backup_django, he]
      rw [if_pos hec]
      exact ⟨⟨rfl, ⟨[LogEntry.info _], rfl⟩, ⟨[Call.django c.name], rfl⟩,
        ⟨[GzFile.mk (djangoBackupFile dir c.name ts) output], rfl⟩⟩, rfl⟩
    · simp only [backup_django, he]
      rw [if_neg hec]
      exact ⟨⟨rfl, ⟨[LogEntry.error _], rfl⟩, ⟨[Call.django c.name], rfl⟩,
        ⟨[], (List.append_nil _).symm⟩⟩, rfl⟩

/-- `backup_volume` extends the state, and its call record is exactly one
volume invocation. -/
theorem backup_volume_extends (c : Container) (vol dir ts : String) (st : St) :
    StExtends (backup_volume c vol dir ts st).2 st ∧
    (backup_volume c vol dir ts st).2.calls = st.calls ++ [Call.volume c.name vol] := by
  cases ha : c.getArchive vol with
  | error e =>
    simp only [backup_volume, ha]
    exact ⟨⟨rfl, ⟨[LogEntry.error _], rfl⟩, ⟨[Call.volume c.name vol], rfl⟩,
      ⟨[], (List.append_nil _).symm⟩⟩, rfl⟩
  | ok r =>
    obtain ⟨bits, stat⟩ := r
    simp only [backup_volume, ha]
    exact ⟨⟨rfl, ⟨[LogEntry.info _], rfl⟩, ⟨[Call.volume c.name vol], rfl⟩,
      ⟨[GzFile.mk (volumeBackupFile dir c.name vol ts) (writeChunks bits)], rfl⟩⟩, rfl⟩

/-- Whether a call record is a database-dump invocation. -/
def isMysqlCall : Call → Bool
  | Call.mysql _ => true
  | _ => false

theorem dumpStep_extends (c : Container) (dir : String) (tclock : Nat → DT) (n : Nat) (st : St) :
    StExtends (dumpStep c dir tclock n st).1 st := by
  simp only [dumpStep]
  by_cases h1 : (dictGet c.labels "DCBAK-TYPE" "" == "mysql") = true
  · rw [if_pos h1]
    rcases hb : backup_mysql c dir (strftimeYmdHMS (tclock n)) (st.logInfo " > MySQL Backup")
      with ⟨r, st2⟩
    have hext : StExtends st2 st := by
      have h := (backup_mysql_extends c dir (strftimeYmdHMS (tclock n))
        (st.logInfo " > MySQL Backup")).1
      rw [hb] at h
      exact stExtends_trans h (logInfo_extends st _)
    cases r <;> exact hext
  · rw [if_neg h1]
    by_cases h2 : (dictGet c.labels "DCBAK-TYPE" "" == "django") = true
    · rw [if_pos h2]
      rcases hb : backup_django c dir (strftimeYmdHMS (tclock n)) (st.logInfo " > Django Backup")
        with ⟨r, st2⟩
      have hext : StExtends st2 st := by
        have h := (backup_django_extends c dir (strftimeYmdHMS (tclock n))
          (st.logInfo " > Django Backup")).1
        rw [hb] at h
        exact stExtends_trans h (logInfo_extends st _)
      cases r <;> exact hext
    · rw [if_neg h2]
      exact stExtends_refl st

theorem volumeStep_extends (c : Container) (dir : String) (tclock : Nat → DT) (n : Nat) (st : St) :
    StExtends (volumeStep c dir tclock n st).1 st := by
  simp only [volumeStep]
  by_cases h1 : dictGet c.labels "DCBAK-VOLUME" "" ≠ ""
  · rw [if_pos h1]
    rcases hb : backup_volume c (dictGet c.labels "DCBAK-VOLUME" "") dir
      (strftimeYmdHMS (tclock n)) (st.logInfo " > Volume Backup") with ⟨r, st2⟩
    have hext : StExtends st2 st := by
      have h := (backup_volume_extends c (dictGet c.labels "DCBAK-VOLUME" "") dir
        (strftimeYmdHMS (tclock n)) (st.logInfo " > Volume Backup")).1
      rw [hb] at h
      exact stExtends_trans h (logInfo_extends st _)
    cases r <;> exact hext
  · rw [if_neg h1]
    exact stExtends_refl st

theorem tryBody_extends (c : Container) (dir : String) (tclock : Nat → DT) (n : Nat) (st : St) :
    StExtends (tryBody c dir tclock n st).1 st := by
  simp only [tryBody]
  rcases hd : dumpStep c dir tclock n st with ⟨st1, n1, o⟩
  have h1 : StExtends st1 st := by
    have h := dumpStep_extends c dir tclock n st
    rw [hd] at h
    exact h
  cases o with
  | some e => exact h1
  | none =>
    have h2 := volumeStep_extends c dir tclock n1 st1
    exact stExtends_trans h2 h1

/-- When the container is opted in, the result of `processOne` extends the
state as it was right after the intent log line. -/
theorem processOne_extends_logged (c : Container) (dir : String) (tclock : Nat → DT) (n : Nat)
    (st : St) (hopt : optIn c = true) :
    StExtends (processOne c dir tclock n st).1 (st.logInfo ("Backing up " ++ c.name)) := by
  simp only [processOne, hopt, if_pos]
  rcases ht : tryBody c dir tclock n (st.logInfo ("Backing up " ++ c.name)) with ⟨st2, n2, o⟩
  have h1 : StExtends st2 (st.logInfo ("Backing up " ++ c.name)) := by
    have h := tryBody_extends c dir tclock n (st.logInfo ("Backing up " ++ c.name))
    rw [ht] at h
    exact h
  cases o with
  | none => exact h1
  | some e => exact stExtends_trans (logError_extends st2 _) h1

theorem processOne_extends (c : Container) (dir : String) (tclock : Nat → DT) (n : Nat)
    (st : St) : StExtends (processOne c dir tclock n st).1 st := by
  by_cases hopt : optIn c = true
  · exact stExtends_trans (processOne_extends_logged c dir tclock n st hopt)
      (logInfo_extends st _)
  · simp only [processOne, if_neg hopt]
    exact stExtends_refl st

theorem processAll_cons (c : Container) (rest : List Container) (dir : String)
    (tclock : Nat → DT) (n : Nat) (st : St) :
    processAll (c :: rest) dir tclock n st =
      processAll rest dir tclock (processOne c dir tclock n st).2
        (processOne c dir tclock n st).1 := rfl

theorem processAll_extends (cs : List Container) (dir : String) (tclock : Nat → DT) (n : Nat)
    (st : St) : StExtends (processAll cs dir tclock n st).1 st := by
  induction cs generalizing n st with
  | nil => exact stExtends_refl st
  | cons c rest ih =>
    rw [processAll_cons]
    exact stExtends_trans (ih _ _) (processOne_extends c dir tclock n st)

theorem processAll_append_eq (l1 l2 : List Container) (dir : String) (tclock : Nat → DT)
    (n : Nat) (st : St) :
    processAll (l1 ++ l2) dir tclock n st =
      processAll l2 dir tclock (processAll l1 dir tclock n st).2
        (processAll l1 dir tclock n st).1 := by
  induction l1 generalizing n st with
  | nil => rfl
  | cons c rest ih =>
    rw [List.cons_append, processAll_cons, processAll_cons, ih]

/-- An opted-in container always gets its intent line into the log. -/
theorem processOne_backing_up (c : Container) (dir : String) (tclock : Nat → DT) (n : Nat)
    (st : St) (hopt : optIn c = true) :
    LogEntry.info ("Backing up " ++ c.name) ∈ (processOne c dir tclock n st).1.log := by
  have hmem : LogEntry.info ("Backing up " ++ c.name)
      ∈ (st.logInfo ("Backing up " ++ c.name)).log := by
    simp [St.logInfo]
  exact mem_log_of_extends (processOne_extends_logged c dir tclock n st hopt) hmem

/-- With `DCBAK-TYPE = "mysql"`, the dump dispatch records exactly one MySQL
invocation. -/
theorem dumpStep_calls_mysql (c : Container) (dir : String) (tclock : Nat → DT) (n : Nat)
    (st : St) (htype : dictGet c.labels "DCBAK-TYPE" "" = "mysql") :
    (dumpStep c dir tclock n st).1.calls = st.calls ++ [Call.mysql c.name] := by
  simp only [dumpStep]
  rw [if_pos (by rw [htype]; exact beq_self_eq_true "mysql")]
  rcases hb : backup_mysql c dir (strftimeYmdHMS (tclock n)) (st.logInfo " > MySQL Backup")
    with ⟨r, st2⟩
  have h := (backup_mysql_extends c dir (strftimeYmdHMS (tclock n))
    (st.logInfo " > MySQL Backup")).2
  rw [hb] at h
  cases r <;> exact h

/-- The volume dispatch adds no MySQL invocation. -/
theorem volumeStep_calls (c : Container) (dir : String) (tclock : Nat → DT) (n : Nat)
    (st : St) :
    ∃ u, (volumeStep c dir tclock n st).1.calls = st.calls ++ u ∧
      u.countP isMysqlCall = 0 := by
  simp only [volumeStep]
  by_cases h1 : dictGet c.labels "DCBAK-VOLUME" "" ≠ ""
  · rw [if_pos h1]
    rcases hb : backup_volume c (dictGet c.labels "DCBAK-VOLUME" "") dir
      (strftimeYmdHMS (tclock n)) (st.logInfo " > Volume Backup") with ⟨r, st2⟩
    have h := (backup_volume_extends c (dictGet c.labels "DCBAK-VOLUME" "") dir
      (strftimeYmdHMS (tclock n)) (st.logInfo " > Volume Backup")).2
    rw [hb] at h
    refine ⟨[Call.volume c.name (dictGet c.labels "DCBAK-VOLUME" "")], ?_, rfl⟩
    cases r <;> exact h
  · rw [if_neg h1]
    exact ⟨[], (List.append_nil _).symm, rfl⟩

/-- With `DCBAK-TYPE = "mysql"`, the whole `try` body records exactly one
MySQL invocation (plus possibly a volume invocation). -/
theorem tryBody_calls_mysql (c : Container) (dir : String) (tclock : Nat → DT) (n : Nat)
    (st : St) (htype : dictGet c.labels "DCBAK-TYPE" "" = "mysql") :
    ∃ u, (tryBody c dir tclock n st).1.calls = st.calls ++ Call.mysql c.name :: u ∧
      u.countP isMysqlCall = 0 := by
  simp only [tryBody]
  rcases hd : dumpStep c dir tclock n st with ⟨st1, n1, o⟩
  have h1 : st1.calls = st.calls ++ [Call.mysql c.name] := by
    have h := dumpStep_calls_mysql c dir tclock n st htype
    rw [hd] at h
    exact h
  cases o with
  | some e => exact ⟨[], h1, rfl⟩
  | none =>
    obtain ⟨u, hu, hcount⟩ := volumeStep_calls c dir tclock n1 st1
    refine ⟨u, ?_, hcount⟩
    rw [hu, h1, List.append_assoc]
    rfl

/-- With opt-in and `DCBAK-TYPE = "mysql"`, one container's processing adds
exactly one MySQL invocation to the call record. -/
theorem processOne_mysql_count (c : Container) (dir : String) (tclock : Nat → DT) (n : Nat)
    (st : St) (hopt : optIn c = true) (htype : dictGet c.labels "DCBAK-TYPE" "" = "mysql") :
    (processOne c dir tclock n st).1.calls.countP isMysqlCall =
      st.calls.countP isMysqlCall + 1 := by
  simp only [processOne, hopt, if_pos]
  rcases ht : tryBody c dir tclock n (st.logInfo ("Backing up " ++ c.name)) with ⟨st2, n2, o⟩
  obtain ⟨u, hu, hcount⟩ := tryBody_calls_mysql c dir tclock n
    (st.logInfo ("Backing up " ++ c.name)) htype
  rw [ht] at hu
  have hcalls : st2.calls.countP isMysqlCall = st.calls.countP isMysqlCall + 1 := by
    have hlog : (st.logInfo ("Backing up " ++ c.name)).calls = st.calls := rfl
    rw [hu, hlog, List.countP_append, List.countP_cons_of_pos _ _ (by rfl), hcount]
  cases o with
  | none => exact hcalls
  | some e => exact hcalls

/-- With opt-in and `DCBAK-TYPE = "mysql"`, the MySQL invocation for this
container is in the final call record. -/
theorem processOne_mysql_mem (c : Container) (dir : String) (tclock : Nat → DT) (n : Nat)
    (st : St) (hopt : optIn c = true) (htype : dictGet c.labels "DCBAK-TYPE" "" = "mysql") :
    Call.mysql c.name ∈ (processOne c dir tclock n st).1.calls := by
  simp only [processOne, hopt, if_pos]
  rcases ht : tryBody c dir tclock n (st.logInfo ("Backing up " ++ c.name)) with ⟨st2, n2, o⟩
  obtain ⟨u, hu, -⟩ := tryBody_calls_mysql c dir tclock n
    (st.logInfo ("Backing up " ++ c.name)) htype
  rw [ht] at hu
  have hmem : Call.mysql c.name ∈ st2.calls := by
    rw [hu]
    exact List.mem_append_right _ (List.mem_cons_self _ _)
  cases o with
  | none => exact hmem
  | some e => exact hmem

/-- Every opted-in container in the list gets its intent line into the final
log of the loop. -/
theorem processAll_mem_info (cs : List Container) (dir : String) (tclock : Nat → DT)
    (B : Container) (hB : B ∈ cs) (hopt : optIn B = true) (n : Nat) (st : St) :
    LogEntry.info ("Backing up " ++ B.name) ∈ (processAll cs dir tclock n st).1.log := by
  induction cs generalizing n st with
  | nil => cases hB
  | cons c rest ih =>
    rw [processAll_cons]
    rcases List.mem_cons.mp hB with hBc | hBrest
    · subst hBc
      exact mem_log_of_extends (processAll_extends rest dir tclock _ _)
        (processOne_backing_up B dir tclock n st hopt)
    · exact ih hBrest _ _

/-- Every opted-in container in the list with `DCBAK-TYPE = "mysql"` gets
its MySQL invocation into the final call record of the loop. -/
theorem processAll_mem_mysql (cs : List Container) (dir : String) (tclock : Nat → DT)
    (B : Container) (hB : B ∈ cs) (hopt : optIn B = true)
    (htype : dictGet B.labels "DCBAK-TYPE" "" = "mysql") (n : Nat) (st : St) :
    Call.mysql B.name ∈ (processAll cs dir tclock n st).1.calls := by
  induction cs generalizing n st with
  | nil => cases hB
  | cons c rest ih =>
    rw [processAll_cons]
    rcases List.mem_cons.mp hB with hBc | hBrest
    · subst hBc
      exact mem_calls_of_extends (processAll_extends rest dir tclock _ _)
        (processOne_mysql_mem B dir tclock n st hopt htype)
    · exact ih hBrest _ _

/-! ## Concrete fixtures used by counterexamples and witnesses -/

/-- An empty starting state. -/
def stEmpty : St := ⟨⟨[], []⟩, [], []⟩

/-- A fixed clock reading. -/
def dtEx : DT := ⟨2024, 1, 2, 3, 4, 5, 678901⟩

/-- A container whose SDK calls raise (the Docker daemon answers 500/404). -/
def cRaise : Container :=
  { name := "db1"
    labels := [("DCBAK", "true"), ("DCBAK-TYPE", "mysql")]
    env := ["MYSQL_DATABASE=app"]
    execRun := fun _ _ => Except.error "APIError: 500 Server Error"
    getArchive := fun _ => Except.error "NotFound: 404" }

/-- A healthy container: every SDK call succeeds. -/
def cGood : Container :=
  { name := "web-1"
    labels := [("DCBAK", "true"), ("DCBAK-TYPE", "django"), ("DCBAK-VOLUME", "/data")]
    env := ["MYSQL_USER=admin", "MYSQL_PASSWORD=secret", "MYSQL_DATABASE=app"]
    execRun := fun _ _ => Except.ok (0, [104, 105])
    getArchive := fun _ => Except.ok ([[97, 98, 99], [100, 101, 102]], ⟨6⟩) }

/-- A container whose `Config.Env` has an entry without `=`, so building the
environment dict raises `ValueError` inside `backup_mysql`. -/
def cEnvBad : Container :=
  { name := "legacy"
    labels := [("DCBAK", "true"), ("DCBAK-TYPE", "mysql")]
    env := ["NOEQUALS"]
    execRun := fun _ _ => Except.ok (0, [111])
    getArchive := fun _ => Except.error "NotFound: 404" }

/-- An opted-in MySQL container processed after `cEnvBad` in the witness. -/
def cB : Container :=
  { name := "db2"
    labels := [("DCBAK", "true"), ("DCBAK-TYPE", "mysql")]
    env := ["MYSQL_DATABASE=shop"]
    execRun := fun _ _ => Except.ok (0, [111])
    getArchive := fun _ => Except.error "NotFound: 404" }

/-- A container that did not opt in. -/
def cOff : Container :=
  { name := "plain"
    labels := [("DCBAK", "false")]
    env := []
    execRun := fun _ _ => Except.ok (0, [])
    getArchive := fun _ => Except.error "NotFound: 404" }

/-- A container whose dump command exits with status 2. -/
def cFailExit : Container :=
  { name := "db4"
    labels := [("DCBAK", "true"), ("DCBAK-TYPE", "mysql")]
    env := ["MYSQL_DATABASE=app"]
    execRun := fun _ _ => Except.ok (2, [101])
    getArchive := fun _ => Except.error "NotFound: 404" }

/-- An opted-in container with mixed-case `DCBAK` and a MySQL dump type. -/
def cMixed : Container :=
  { name := "db3"
    labels := [("DCBAK", "TRUE"), ("DCBAK-TYPE", "mysql")]
    env := ["MYSQL_DATABASE=app"]
    execRun := fun _ _ => Except.ok (0, [100])
    getArchive := fun _ => Except.error "NotFound: 404" }

/-- A world in which connecting to the Docker daemon raises. -/
def wFail : World := ⟨⟨[], []⟩, Except.error "connection refused", fun _ => dtEx⟩

/-! ## Claim theorems -/

/-- C1 counterexample: the database-dump strategy does not catch all
failures: when `exec_run` raises, `backup_mysql` does not return a boolean
success value — the exception propagates to its caller. -/
theorem backup_mysql_propagates :
    ¬ ∃ b : Bool,
      (backup_mysql cRaise "/backup" "20240102_030405" stEmpty).1 = Except.ok b := by
  intro h
  obtain ⟨b, hb⟩ := h
  have he : (backup_mysql cRaise "/backup" "20240102_030405" stEmpty).1
      = Except.error "APIError: 500 Server Error" := rfl
  rw [he] at hb
  exact Except.noConfusion hb

/-- C1 (amended): the volume-archive strategy catches every failure
internally and always returns a boolean success value; the database-dump
and framework-dump strategies return a boolean whenever the environment
parses and the in-container command completes with an exit status (when
those raise instead, the exception propagates to the per-container
boundary, as the counterexample shows). -/
theorem strategy_error_discipline :
    (∀ (c : Container) (vol dir ts : String) (st : St),
      ∃ b, (backup_volume c vol dir ts st).1 = Except.ok b) ∧
    (∀ (c : Container) (dir ts : String) (st : St) (ed : List (String × String))
        (ec : Int) (out : List Nat),
      parseEnv c.env = Except.ok ed →
      (∀ cmd env2, c.execRun cmd env2 = Except.ok (ec, out)) →
      ∃ b, (backup_mysql c dir ts st).1 = Except.ok b) ∧
    (∀ (c : Container) (dir ts : String) (st : St) (ec : Int) (out : List Nat),
      (∀ cmd env2, c.execRun cmd env2 = Except.ok (ec, out)) →
      ∃ b, (backup_django c dir ts st).1 = Except.ok b) := by
  refine ⟨?_, ?_, ?_⟩
  · intro c vol dir ts st
    cases ha : c.getArchive vol with
    | error e => exact ⟨false, by simp only [backup_volume, ha]⟩
    | ok r =>
      obtain ⟨bits, stat⟩ := r
      exact ⟨true, by simp only [backup_volume, ha]⟩
  · intro c dir ts st ed ec out hp hexec
    by_cases hec : ec = 0
    · exact ⟨true, by simp only [backup_mysql, hp, hexec]; rw [if_pos hec]⟩
    · exact ⟨false, by simp only [backup_mysql, hp, hexec]; rw [if_neg hec]⟩
  · intro c dir ts st ec out hexec
    by_cases hec : ec = 0
    · exact ⟨true, by simp only [backup_django, hexec]; rw [if_pos hec]⟩
    · exact ⟨false, by simp only [backup_django, hexec]; rw [if_neg hec]⟩

/-- Witness for C1 (amended) at a concrete healthy container. -/
theorem strategy_error_discipline_witness :
    (∃ b, (backup_volume cGood "/data" "/backup" "20240102_030405" stEmpty).1 = Except.ok b) ∧
    (∃ b, (backup_mysql cGood "/backup" "20240102_030405" stEmpty).1 = Except.ok b) ∧
    (∃ b, (backup_django cGood "/backup" "20240102_030405" stEmpty).1 = Except.ok b) :=
  ⟨strategy_error_discipline.1 cGood "/data" "/backup" "20240102_030405" stEmpty,
   strategy_error_discipline.2.1 cGood "/backup" "20240102_030405" stEmpty
     [("MYSQL_USER", "admin"), ("MYSQL_PASSWORD", "secret"), ("MYSQL_DATABASE", "app")]
     0 [104, 105] rfl (fun _ _ => rfl),
   strategy_error_discipline.2.2 cGood "/backup" "20240102_030405" stEmpty
     0 [104, 105] (fun _ _ => rfl)⟩

/-- C5: a Docker connection failure is logged and fatal — the run ends with
no container processed, no strategy invoked, and no file written. -/
theorem connect_failure_fatal (w : World) (e : String)
    (hdock : w.docker = Except.error e) :
    (pyMain w).fs.files = w.fs0.files ∧
    (pyMain w).calls = [] ∧
    (pyMain w).log = [LogEntry.error ("Failed to connect to Docker: " ++ e)] := by
  simp only [pyMain, hdock]
  refine ⟨?_, rfl, rfl⟩
  show (ensure_backup_dir w.fs0 (resolveBackupDir w.fs0)).files = w.fs0.files
  unfold ensure_backup_dir
  split <;> rfl

/-- Witness for C5 at a concrete failing world. -/
theorem connect_failure_fatal_witness :
    (pyMain wFail).fs.files = wFail.fs0.files ∧
    (pyMain wFail).calls = [] ∧
    (pyMain wFail).log = [LogEntry.error ("Failed to connect to Docker: " ++ "connection refused")] :=
  connect_failure_fatal wFail "connection refused" rfl

/-- C6: a non-zero exit status of the dump command makes either dump
strategy return `false`, leave the filesystem untouched, and log an error
message that contains the container's name; the strategy consults the exec
call once, so no retry occurs. -/
theorem dump_nonzero_exit_fails (c : Container) (dir ts : String) (st : St) (ec : Int)
    (out : List Nat) (ed : List (String × String))
    (hp : parseEnv c.env = Except.ok ed)
    (hexec : ∀ cmd env2, c.execRun cmd env2 = Except.ok (ec, out))
    (hec : ec ≠ 0) :
    backup_mysql c dir ts st =
      (Except.ok false,
        { st with calls := st.calls ++ [Call.mysql c.name],
                  log := st.log ++
                    [LogEntry.error ("MySQL backup failed for " ++ c.name ++ ": " ++ pyDecode out)] }) ∧
    backup_django c dir ts st =
      (Except.ok false,
        { st with calls := st.calls ++ [Call.django c.name],
                  log := st.log ++
                    [LogEntry.error ("Django backup failed for " ++ c.name ++ ": " ++ pyDecode out)] }) ∧
    (∃ pre post,
      "MySQL backup failed for " ++ c.name ++ ": " ++ pyDecode out = pre ++ c.name ++ post) := by
  refine ⟨?_, ?_, ?_⟩
  · simp only [backup_mysql, hp, hexec]
    rw [if_neg hec]
    rfl
  · simp only [backup_django, hexec]
    rw [if_neg hec]
    rfl
  · refine ⟨"MySQL backup failed for ", ": " ++ pyDecode out, ?_⟩
    simp [String.append_assoc]

/-- Witness for C6 at a concrete container whose dump exits with status 2. -/
theorem dump_nonzero_exit_fails_witness :
    (backup_mysql cFailExit "/backup" "20240102_030405" stEmpty).1 = Except.ok false ∧
    (backup_mysql cFailExit "/backup" "20240102_030405" stEmpty).2.fs.files = [] ∧
    (backup_django cFailExit "/backup" "20240102_030405" stEmpty).1 = Except.ok false := by
  have h := dump_nonzero_exit_fails cFailExit "/backup" "20240102_030405" stEmpty 2 [101]
    [("MYSQL_DATABASE", "app")] rfl (fun _ _ => rfl) (by decide)
  refine ⟨?_, ?_, ?_⟩
  · rw [h.1]
  · rw [h.1]
    rfl
  · rw [h.2.1]

/-- C7: the volume artifact's decompressed content is the concatenation of
the fetched chunks, in order. -/
theorem volume_stream_fidelity (c : Container) (vol dir ts : String) (st : St)
    (bits : List (List Nat)) (stat : ArchiveStat)
    (harch : c.getArchive vol = Except.ok (bits, stat)) :
    ∃ f : GzFile,
      (backup_volume c vol dir ts st).2.fs.files = st.fs.files ++ [f] ∧
      f.path = volumeBackupFile dir c.name vol ts ∧
      gunzip f = bits.flatten := by
  refine ⟨GzFile.mk (volumeBackupFile dir c.name vol ts) (writeChunks bits), ?_, rfl, ?_⟩
  · simp only [backup_volume, harch]
    rfl
  · simpa [gunzip] using writeChunks_eq_join bits

/-- Witness for C7: chunks `b"abc"`, `b"def"` decompress to `b"abcdef"`. -/
theorem volume_stream_fidelity_witness :
    ∃ f : GzFile,
      (backup_volume cGood "/data" "/backup" "20240102_030405" stEmpty).2.fs.files =
        stEmpty.fs.files ++ [f] ∧
      f.path = volumeBackupFile "/backup" cGood.name "/data" "20240102_030405" ∧
      gunzip f = [97, 98, 99, 100, 101, 102] :=
  volume_stream_fidelity cGood "/data" "/backup" "20240102_030405" stEmpty
    [[97, 98, 99], [100, 101, 102]] ⟨6⟩ rfl

/-- C2: an exception raised while processing one container is caught at the
per-container boundary and logged with that container's name, and every
later opted-in container is still processed — its intent line is logged
and, when its label dispatches MySQL, its strategy is invoked. -/
theorem container_isolation (dir : String) (tclock : Nat → DT) (cs1 cs2 : List Container)
    (A : Container) (n : Nat) (st stA : St) (nA : Nat) (stE : St) (nE : Nat) (e : String)
    (h1 : processAll cs1 dir tclock n st = (stA, nA))
    (hA : optIn A = true)
    (hraise : tryBody A dir tclock nA (stA.logInfo ("Backing up " ++ A.name))
      = (stE, nE, some e)) :
    LogEntry.error ("Error processing container " ++ A.name ++ ": " ++ e)
        ∈ (processAll (cs1 ++ A :: cs2) dir tclock n st).1.log ∧
    ∀ B, B ∈ cs2 → optIn B = true →
      LogEntry.info ("Backing up " ++ B.name)
          ∈ (processAll (cs1 ++ A :: cs2) dir tclock n st).1.log ∧
      (dictGet B.labels "DCBAK-TYPE" "" = "mysql" →
        Call.mysql B.name ∈ (processAll (cs1 ++ A :: cs2) dir tclock n st).1.calls) := by
  have hsplit : processAll (cs1 ++ A :: cs2) dir tclock n st
      = processAll cs2 dir tclock (processOne A dir tclock nA stA).2
          (processOne A dir tclock nA stA).1 := by
    rw [processAll_append_eq, h1]
    rfl
  have hApone : processOne A dir tclock nA stA
      = (stE.logError ("Error processing container " ++ A.name ++ ": " ++ e), nE) := by
    simp only [processOne, hA, if_pos, hraise]
  constructor
  · rw [hsplit, hApone]
    apply mem_log_of_extends (processAll_extends cs2 dir tclock _ _)
    simp [St.logError]
  · intro B hB hoptB
    constructor
    · rw [hsplit]
      exact processAll_mem_info cs2 dir tclock B hB hoptB _ _
    · intro htypeB
      rw [hsplit]
      exact processAll_mem_mysql cs2 dir tclock B hB hoptB htypeB _ _

/-- Witness for C2: `cEnvBad` raises while being processed, the error is
logged with its name, and the later container `cB` is still backed up. -/
theorem container_isolation_witness :
    LogEntry.error ("Error processing container " ++ cEnvBad.name ++ ": " ++
        "ValueError: dictionary update sequence element has length 1; 2 is required")
      ∈ (processAll ([] ++ cEnvBad :: [cB]) "/backup" (fun _ => dtEx) 0 stEmpty).1.log ∧
    LogEntry.info ("Backing up " ++ cB.name)
      ∈ (processAll ([] ++ cEnvBad :: [cB]) "/backup" (fun _ => dtEx) 0 stEmpty).1.log ∧
    Call.mysql cB.name
      ∈ (processAll ([] ++ cEnvBad :: [cB]) "/backup" (fun _ => dtEx) 0 stEmpty).1.calls := by
  have h := container_isolation "/backup" (fun _ => dtEx) [] [cB] cEnvBad 0 stEmpty stEmpty 0
    (tryBody cEnvBad "/backup" (fun _ => dtEx) 0
      (stEmpty.logInfo ("Backing up " ++ cEnvBad.name))).1
    (tryBody cEnvBad "/backup" (fun _ => dtEx) 0
      (stEmpty.logInfo ("Backing up " ++ cEnvBad.name))).2.1
    "ValueError: dictionary update sequence element has length 1; 2 is required"
    rfl rfl rfl
  exact ⟨h.1, (h.2 cB (List.mem_singleton.mpr rfl) rfl).1,
    (h.2 cB (List.mem_singleton.mpr rfl) rfl).2 rfl⟩

/-- C3: the `DCBAK` gate — a container whose `DCBAK` label does not compare
equal to "true" case-insensitively is skipped entirely (state and clock
unchanged: no strategy invoked, no file written, nothing logged), while
`DCBAK = "TRUE"` with `DCBAK-TYPE = "mysql"` invokes the database-dump
strategy exactly once. -/
theorem dcbak_gate :
    (∀ (c : Container) (dir : String) (tclock : Nat → DT) (n : Nat) (st : St),
      pyLower (dictGet c.labels "DCBAK" "") ≠ "true" →
      processOne c dir tclock n st = (st, n)) ∧
    (∀ (c : Container) (dir : String) (tclock : Nat → DT) (n : Nat) (st : St),
      dictGet c.labels "DCBAK" "" = "TRUE" →
      dictGet c.labels "DCBAK-TYPE" "" = "mysql" →
      (processOne c dir tclock n st).1.calls.countP isMysqlCall =
        st.calls.countP isMysqlCall + 1) := by
  constructor
  · intro c dir tclock n st hlow
    have hfalse : optIn c = false := by
      simp only [optIn]
      exact beq_eq_false_iff_ne.mpr hlow
    simp [processOne, hfalse]
  · intro c dir tclock n st hTRUE htype
    have hopt : optIn c = true := by
      simp only [optIn, hTRUE]
      rfl
    exact processOne_mysql_count c dir tclock n st hopt htype

/-- Witness for C3 at a skipped container and a mixed-case opted-in one. -/
theorem dcbak_gate_witness :
    processOne cOff "/backup" (fun _ => dtEx) 0 stEmpty = (stEmpty, 0) ∧
    (processOne cMixed "/backup" (fun _ => dtEx) 0 stEmpty).1.calls.countP isMysqlCall =
      stEmpty.calls.countP isMysqlCall + 1 :=
  ⟨dcbak_gate.1 cOff "/backup" (fun _ => dtEx) 0 stEmpty (by decide),
   dcbak_gate.2 cMixed "/backup" (fun _ => dtEx) 0 stEmpty rfl rfl⟩

/-- Joining two different relative names onto the same directory gives
different paths when the names start with different characters. -/
theorem osPathJoin_ne (dir a b : String) (ca cb : Char) (hne : ca ≠ cb)
    (ha : a.data.head? = some ca) (hb : b.data.head? = some cb) :
    osPathJoin dir a ≠ osPathJoin dir b := by
  unfold osPathJoin
  intro h
  by_cases hd : (pyEndsWith dir "/") = true
  · rw [if_pos hd, if_pos hd] at h
    have hdata := congrArg String.data h
    rw [String.data_append, String.data_append] at hdata
    have hab := List.append_cancel_left hdata
    rw [hab, hb] at ha
    exact hne (Option.some.inj ha).symm
  · rw [if_neg hd, if_neg hd] at h
    have hdata := congrArg String.data h
    rw [String.data_append, String.data_append] at hdata
    have hab := List.append_cancel_left hdata
    rw [hab, hb] at ha
    exact hne (Option.some.inj ha).symm

/-- C4: the dump dispatch and the volume dispatch are independent: a
container with `DCBAK-TYPE = "django"` and `DCBAK-VOLUME = "/data"` (when
both SDK calls succeed) has both strategies run and two artifact files with
distinct paths written. -/
theorem dump_and_volume_independent (c : Container) (dir : String) (tclock : Nat → DT)
    (n : Nat) (st : St) (out : List Nat) (bits : List (List Nat)) (stat : ArchiveStat)
    (hopt : optIn c = true)
    (htype : dictGet c.labels "DCBAK-TYPE" "" = "django")
    (hvol : dictGet c.labels "DCBAK-VOLUME" "" = "/data")
    (hexec : ∀ cmd env2, c.execRun cmd env2 = Except.ok (0, out))
    (harch : ∀ p, c.getArchive p = Except.ok (bits, stat)) :
    (processOne c dir tclock n st).1.calls =
      st.calls ++ [Call.django c.name, Call.volume c.name "/data"] ∧
    (processOne c dir tclock n st).1.fs.files =
      st.fs.files ++
        [GzFile.mk (djangoBackupFile dir c.name (strftimeYmdHMS (tclock n))) out,
         GzFile.mk (volumeBackupFile dir c.name "/data" (strftimeYmdHMS (tclock (n + 1))))
           (writeChunks bits)] ∧
    djangoBackupFile dir c.name (strftimeYmdHMS (tclock n)) ≠
      volumeBackupFile dir c.name "/data" (strftimeYmdHMS (tclock (n + 1))) := by
  have hstep : processOne c dir tclock n st =
      ((((((st.logInfo ("Backing up " ++ c.name)).logInfo
              " > Django Backup").recordCall (Call.django c.name)).writeGz
            (djangoBackupFile dir c.name (strftimeYmdHMS (tclock n))) out).logInfo
          ("Django backup saved to " ++ djangoBackupFile dir c.name (strftimeYmdHMS (tclock n)))
        |>.logInfo " > Volume Backup" |>.recordCall (Call.volume c.name "/data")
        |>.writeGz (volumeBackupFile dir c.name "/data" (strftimeYmdHMS (tclock (n + 1))))
          (writeChunks bits)
        |>.logInfo ("Volume backup saved to " ++
          volumeBackupFile dir c.name "/data" (strftimeYmdHMS (tclock (n + 1))))), n + 2) := by
    simp only [processOne, hopt, if_pos, tryBody, dumpStep, htype, volumeStep, hvol,
      backup_django, backup_volume, hexec, harch]
    rw [if_neg (by decide : ¬ ((("django" : String) == "mysql") = true))]
    rw [if_pos (by decide : ((("django" : String) == "django") = true))]
    dsimp only
    rw [if_pos (by decide : ("/data" : String) ≠ "")]
  refine ⟨?_, ?_, ?_⟩
  · rw [hstep]
    simp [St.logInfo, St.recordCall, St.writeGz, List.append_assoc]
  · rw [hstep]
    simp [St.logInfo, St.recordCall, St.writeGz, List.append_assoc]
  · exact osPathJoin_ne dir
      ("django_backup_" ++ safe_filename c.name ++ "_" ++ strftimeYmdHMS (tclock n) ++ ".json.gz")
      ("volume_backup_" ++ safe_filename c.name ++ "_" ++ safe_filename "/data" ++ "_" ++
        strftimeYmdHMS (tclock (n + 1)) ++ ".tar.gz")
      'd' 'v' (by decide) rfl rfl

/-- Witness for C4 at a concrete container with both labels set. -/
theorem dump_and_volume_independent_witness :
    (processOne cGood "/backup" (fun _ => dtEx) 0 stEmpty).1.calls =
      stEmpty.calls ++ [Call.django cGood.name, Call.volume cGood.name "/data"] ∧
    (processOne cGood "/backup" (fun _ => dtEx) 0 stEmpty).1.fs.files =
      stEmpty.fs.files ++
        [GzFile.mk (djangoBackupFile "/backup" cGood.name (strftimeYmdHMS dtEx)) [104, 105],
         GzFile.mk (volumeBackupFile "/backup" cGood.name "/data" (strftimeYmdHMS dtEx))
           (writeChunks [[97, 98, 99], [100, 101, 102]])] ∧
    djangoBackupFile "/backup" cGood.name (strftimeYmdHMS dtEx) ≠
      volumeBackupFile "/backup" cGood.name "/data" (strftimeYmdHMS dtEx) :=
  dump_and_volume_independent cGood "/backup" (fun _ => dtEx) 0 stEmpty [104, 105]
    [[97, 98, 99], [100, 101, 102]] ⟨6⟩ rfl rfl rfl (fun _ _ => rfl) (fun _ => rfl)

/-- C8: the artifact paths of the three strategies follow the bit-exact
specification scheme
`<dir>/<kind>_backup_<safe(name)>[_<safe(extra)>]_<YYYYMMDD_HHMMSS>.<ext>.gz`
with kind/ext pairs mysql/sql, django/json, volume/tar, only the volume
kind carrying the extra segment, and the timestamp at second resolution
(independent of the microsecond field). -/
theorem artifact_naming_scheme (dir cname vol ts : String)
    (hdir : pyEndsWith dir "/" = false) :
    mysqlBackupFile dir cname ts = specFilename dir "mysql" cname none ts "sql" ∧
    djangoBackupFile dir cname ts = specFilename dir "django" cname none ts "json" ∧
    volumeBackupFile dir cname vol ts = specFilename dir "volume" cname (some vol) ts "tar" ∧
    ∀ (d : DT) (k : Nat), strftimeYmdHMS { d with microsecond := k } = strftimeYmdHMS d := by
  have e1 : ("mysql_backup_" : String).data
      = ("mysql" : String).data ++ ("_backup_" : String).data := by decide
  have e2 : ("django_backup_" : String).data
      = ("django" : String).data ++ ("_backup_" : String).data := by decide
  have e3 : ("volume_backup_" : String).data
      = ("volume" : String).data ++ ("_backup_" : String).data := by decide
  have e4 : (".sql.gz" : String).data
      = ("." : String).data ++ ("sql" : String).data ++ (".gz" : String).data := by decide
  have e5 : (".json.gz" : String).data
      = ("." : String).data ++ ("json" : String).data ++ (".gz" : String).data := by decide
  have e6 : (".tar.gz" : String).data
      = ("." : String).data ++ ("tar" : String).data ++ (".gz" : String).data := by decide
  have e0 : ("" : String).data = ([] : List Char) := rfl
  refine ⟨?_, ?_, ?_, fun d k => rfl⟩
  · apply stringEqOfData
    simp [mysqlBackupFile, osPathJoin, hdir, specFilename, String.data_append, e1, e4, e0,
      List.append_assoc]
  · apply stringEqOfData
    simp [djangoBackupFile, osPathJoin, hdir, specFilename, String.data_append, e2, e5, e0,
      List.append_assoc]
  · apply stringEqOfData
    simp [volumeBackupFile, osPathJoin, hdir, specFilename, String.data_append, e3, e6, e0,
      List.append_assoc]

/-- Witness for C8 at the concrete backup directory of the program. -/
theorem artifact_naming_scheme_witness :
    pyEndsWith "/backup" "/" = false ∧
    mysqlBackupFile "/backup" "db 1!" "20240102_030405" =
      specFilename "/backup" "mysql" "db 1!" none "20240102_030405" "sql" ∧
    volumeBackupFile "/backup" "db 1!" "/data" "20240102_030405" =
      specFilename "/backup" "volume" "db 1!" (some "/data") "20240102_030405" "tar" :=
  ⟨by decide,
   (artifact_naming_scheme "/backup" "db 1!" "/data" "20240102_030405" (by decide)).1,
   (artifact_naming_scheme "/backup" "db 1!" "/data" "20240102_030405" (by decide)).2.2.1⟩

/-- C9: `safe_filename` keeps only alphanumeric, underscore, or hyphen
characters, its output has no trailing whitespace, and it is idempotent. -/
theorem safe_filename_sound (s : String) :
    (∀ c ∈ (safe_filename s).data, keepChar c = true) ∧
    (∀ c, (safe_filename s).data.getLast? = some c → pyIsSpace c = false) ∧
    safe_filename (safe_filename s) = safe_filename s := by
  have hsub : ∀ c ∈ pyRstrip (s.data.filter keepChar), keepChar c = true := by
    intro c hc
    have hpre := List.rdropWhile_prefix pyIsSpace (s.data.filter keepChar)
    exact (List.mem_filter.mp (hpre.subset hc)).2
  refine ⟨hsub, ?_, ?_⟩
  · intro c hc
    have hc2 : (pyRstrip (s.data.filter keepChar)).getLast? = some c := hc
    have hne : pyRstrip (s.data.filter keepChar) ≠ [] := by
      intro h0
      rw [h0] at hc2
      exact Option.noConfusion hc2
    have hlast : ¬ pyIsSpace ((pyRstrip (s.data.filter keepChar)).getLast hne) = true :=
      List.rdropWhile_last_not pyIsSpace (s.data.filter keepChar) hne
    have hgl : (pyRstrip (s.data.filter keepChar)).getLast hne = c := by
      have hq := List.getLast?_eq_getLast (pyRstrip (s.data.filter keepChar)) hne
      rw [hq] at hc2
      exact Option.some.inj hc2
    rw [hgl] at hlast
    simpa using hlast
  · unfold safe_filename
    congr 1
    have hfix : (pyRstrip (s.data.filter keepChar)).filter keepChar
        = pyRstrip (s.data.filter keepChar) := List.filter_eq_self.mpr hsub
    calc pyRstrip ((String.mk (pyRstrip (s.data.filter keepChar))).data.filter keepChar)
        = pyRstrip (pyRstrip (s.data.filter keepChar)) := by rw [hfix]
      _ = pyRstrip (s.data.filter keepChar) :=
          List.rdropWhile_idempotent pyIsSpace (s.data.filter keepChar)

/-- Witness for C9 at a concrete raw container name. -/
theorem safe_filename_sound_witness :
    keepChar 'a' = true ∧ pyIsSpace 'b' = false ∧
      safe_filename (safe_filename "a b!  ") = safe_filename "a b!  " :=
  ⟨(safe_filename_sound "a b!  ").1 'a' (by decide),
   (safe_filename_sound "a b!  ").2.1 'b' (by decide),
   (safe_filename_sound "a b!  ").2.2⟩

/-- C10: the backup directory is resolved and created before the Docker
connection is attempted, so after every run — including one that ends at
the fatal connection failure — the backup directory exists. -/
theorem backup_dir_always_exists (w : World) :
    resolveBackupDir w.fs0 ∈ (pyMain w).fs.dirs := by
  have hmem : resolveBackupDir w.fs0
      ∈ (ensure_backup_dir w.fs0 (resolveBackupDir w.fs0)).dirs := by
    unfold ensure_backup_dir
    by_cases h : w.fs0.dirs.contains (resolveBackupDir w.fs0) = true
    · rw [if_pos h]
      exact List.mem_of_elem_eq_true h
    · rw [if_neg h]
      exact List.mem_append_right _ (List.mem_cons_self _ _)
  simp only [pyMain]
  cases hd : w.docker with
  | error e => exact hmem
  | ok containers =>
    have hext := processAll_extends containers (resolveBackupDir w.fs0) w.tclock 0
      ⟨ensure_backup_dir w.fs0 (resolveBackupDir w.fs0), [], []⟩
    obtain ⟨hdirs, -, -, -⟩ := hext
    show resolveBackupDir w.fs0 ∈ (processAll containers (resolveBackupDir w.fs0) w.tclock 0
      ⟨ensure_backup_dir w.fs0 (resolveBackupDir w.fs0), [], []⟩).1.fs.dirs
    rw [hdirs]
    exact hmem
